import Mathlib

/-!
# Verification of the Interview_prac scoring logic

A shallow embedding of the rule-based scoring code of the Interview_prac
repository, together with theorems about it.

Texts are modelled as `List Char` (JavaScript strings are sequences of
code units; all characters appearing in this development are in the
Basic Multilingual Plane, where code units and code points coincide).
JavaScript numbers are modelled as `ℚ`: every quantity produced by the
scoring code is a sum of integers and halves, on which binary floating
point arithmetic is exact, so `ℚ` reproduces the JavaScript values.
-/

namespace InterviewPrac

/-- The character set of the JavaScript regex class `\s` (also the set
trimmed by `String.prototype.trim`). -/
def jsWhitespace (c : Char) : Bool :=
  c = '\t' || c = '\n' || c = '\x0B' || c = '\x0C' || c = '\r' || c = ' ' ||
  c = '\u00A0' || c = '\u1680' || ('\u2000' ≤ c && c ≤ '\u200A') ||
  c = '\u2028' || c = '\u2029' || c = '\u202F' || c = '\u205F' ||
  c = '\u3000' || c = '\uFEFF'

/-- JavaScript regex word character, the class `[A-Za-z0-9_]` (`\w`). -/
def isWordChar (c : Char) : Bool :=
  ('A' ≤ c && c ≤ 'Z') || ('a' ≤ c && c ≤ 'z') || ('0' ≤ c && c ≤ '9') || c = '_'

/-- JavaScript regex `\b` at position `p` of `l` (`p` counts positions
between characters, `0 ≤ p ≤ l.length`): holds when exactly one of the two
adjacent characters is a word character, the ends of the string counting as
non-word. -/
def wordBoundaryAt (l : List Char) (p : Nat) : Bool :=
  let before := if p = 0 then false else isWordChar (l.getD (p - 1) ' ')
  let after := if p < l.length then isWordChar (l.getD p ' ') else false
  before != after

/-- `String.prototype.trim`: remove leading and trailing whitespace. -/
def jsTrim (l : List Char) : List Char :=
  ((l.dropWhile jsWhitespace).reverse.dropWhile jsWhitespace).reverse

/-- `String.prototype.toLowerCase` (all text handled here is ASCII-cased). -/
def toLowerList (l : List Char) : List Char := l.map Char.toLower

/-- `text.split(/\s+/).filter(word => word.length > 0).length`: the nonempty
pieces left after splitting on whitespace runs are exactly the maximal runs
of non-whitespace characters, so we count those.  The flag records whether
the previous character belonged to a word. -/
def countWordsAux : List Char → Bool → Nat
  | [], _ => 0
  | c :: rest, inWord =>
    if jsWhitespace c then countWordsAux rest false
    else (if inWord then 0 else 1) + countWordsAux rest true

def countWords (l : List Char) : Nat := countWordsAux l false

/-- `haystack.includes(needle)`: substring containment, by checking every
starting position. -/
def includesStr (l : List Char) (s : String) : Bool :=
  (List.range (l.length + 1)).any fun i => s.toList.isPrefixOf (l.drop i)

/-- `needle` occurs at the start of `l`. -/
def startsWithStr (s : String) (l : List Char) : Bool := s.toList.isPrefixOf l

/-- The characters of `l` from index `i` (inclusive) to `j` (exclusive). -/
def listExtract (l : List Char) (i j : Nat) : List Char := (l.drop i).take (j - i)

/-- The regex class `[A-Za-z0-9]`. -/
def isAsciiAlphanum (c : Char) : Bool :=
  ('A' ≤ c && c ≤ 'Z') || ('a' ≤ c && c ≤ 'z') || ('0' ≤ c && c ≤ '9')

/-- The local-part class `[A-Za-z0-9._%+-]` of the e-mail regex. -/
def emailLocalChar (c : Char) : Bool :=
  isAsciiAlphanum c || c = '.' || c = '_' || c = '%' || c = '+' || c = '-'

/-- The domain class `[A-Za-z0-9.-]` of the e-mail regex. -/
def emailDomainChar (c : Char) : Bool :=
  isAsciiAlphanum c || c = '.' || c = '-'

/-- The top-level-domain class `[A-Z|a-z]` of the e-mail regex: note that
the `|` inside a character class is a literal pipe character. -/
def emailTldChar (c : Char) : Bool :=
  ('A' ≤ c && c ≤ 'Z') || c = '|' || ('a' ≤ c && c ≤ 'z')

/-- `/\b[A-Za-z0-9._%+-]+@[A-Za-z0-9.-]+\.[A-Z|a-z]{2,}\b/.test(text)`.
`test` asks for the existence of a match anywhere in the string, so we
enumerate the position `a` of the `@`, the start `i` of the local part, the
position `d` of the dot introducing the top-level domain and the end `e` of
the match. -/
def hasEmail (l : List Char) : Bool :=
  (List.range l.length).any fun a =>
    l.getD a ' ' = '@' &&
    ((List.range a).any fun i =>
      (listExtract l i a).all emailLocalChar && wordBoundaryAt l i) &&
    ((List.range l.length).any fun d =>
      a + 1 < d && l.getD d ' ' = '.' &&
      (listExtract l (a + 1) d).all emailDomainChar &&
      ((List.range (l.length + 1)).any fun e =>
        d + 3 ≤ e && e ≤ l.length &&
        (listExtract l (d + 1) e).all emailTldChar && wordBoundaryAt l e))

/-- `/\b\d{10,}\b/.test(text)`.  A match must cover a whole maximal digit
run (stopping inside a run puts a digit on both sides of the final `\b`),
so it exists exactly when some maximal digit run of length at least 10 has
word boundaries on both sides. -/
def hasLongDigitRun (l : List Char) : Bool :=
  (List.range l.length).any fun i =>
    wordBoundaryAt l i &&
    (let run := ((l.drop i).takeWhile Char.isDigit).length
     10 ≤ run && wordBoundaryAt l (i + run))

/-- A match of `/\(\d{3}\)\s*\d{3}-\d{4}/` starting at the head of `l`.
The `\s*` is followed by a digit, so a successful match consumes the whole
whitespace run. -/
def parenPhoneFrom (l : List Char) : Bool :=
  match l with
  | '(' :: d1 :: d2 :: d3 :: ')' :: rest =>
    d1.isDigit && d2.isDigit && d3.isDigit &&
    (match rest.dropWhile jsWhitespace with
     | e1 :: e2 :: e3 :: '-' :: f1 :: f2 :: f3 :: f4 :: _ =>
       e1.isDigit && e2.isDigit && e3.isDigit &&
       f1.isDigit && f2.isDigit && f3.isDigit && f4.isDigit
     | _ => false)
  | _ => false

/-- `/\(\d{3}\)\s*\d{3}-\d{4}/.test(text)`. -/
def hasParenPhone (l : List Char) : Bool :=
  (List.range l.length).any fun i => parenPhoneFrom (l.drop i)

/-- `hasPhone` of `calculateAtsScore`:
`/\b\d{10,}\b/.test(text) || /\(\d{3}\)\s*\d{3}-\d{4}/.test(text)`. -/
def hasPhone (l : List Char) : Bool := hasLongDigitRun l || hasParenPhone l

/-- `hasLinkedIn`: `/linkedin\.com|linkedin/.test(text.toLowerCase())`.
Both alternatives are plain substrings, tested on the lowercased text. -/
def hasLinkedIn (l : List Char) : Bool :=
  includesStr (toLowerList l) "linkedin.com" || includesStr (toLowerList l) "linkedin"

/-- The `technicalSkills` keyword list of `calculateAtsScore`. -/
def technicalSkills : List String :=
  ["javascript", "python", "java", "react", "node", "html", "css", "sql",
   "aws", "docker", "git", "mongodb", "postgresql", "typescript", "angular",
   "vue", "django", "flask", "spring", "microservices"]

/-- The `softSkills` keyword list of `calculateAtsScore`. -/
def softSkills : List String :=
  ["communication", "leadership", "teamwork", "problem solving",
   "critical thinking", "creativity", "adaptability", "time management",
   "collaboration", "project management"]

/-- `technicalSkills.filter(skill => text.toLowerCase().includes(skill)).length`. -/
def foundTechnicalCount (l : List Char) : Nat :=
  (technicalSkills.filter fun s => includesStr (toLowerList l) s).length

/-- `softSkills.filter(skill => text.toLowerCase().includes(skill)).length`. -/
def foundSoftCount (l : List Char) : Nat :=
  (softSkills.filter fun s => includesStr (toLowerList l) s).length

/-- The `experienceKeywords` list of `calculateAtsScore`. -/
def experienceKeywords : List String :=
  ["experience", "work", "job", "career", "employment", "position", "role",
   "company", "organization"]

/-- `experienceKeywords.some(keyword => text.toLowerCase().includes(keyword))`. -/
def hasExperienceKeyword (l : List Char) : Bool :=
  experienceKeywords.any fun s => includesStr (toLowerList l) s

/-- A match of `/\d+\s*(?:years?|yrs?)\s*(?:of\s*)?(?:experience|work)/i`
starting at the head of `l` (with `l` already lowercased; the `i` flag on
an ASCII pattern is equivalent to matching the lowercased text).  Each
`\d+` or `\s*` is followed by a letter, so a successful match consumes the
whole digit run and whitespace runs; the alternations are tried
explicitly. -/
def yearsFrom (l : List Char) : Bool :=
  let dign := (l.takeWhile Char.isDigit).length
  if dign = 0 then false else
  let r1 := (l.drop dign).dropWhile jsWhitespace
  ["years", "year", "yrs", "yr"].any fun u =>
    startsWithStr u r1 &&
    (let r2 := (r1.drop u.length).dropWhile jsWhitespace
     (startsWithStr "of" r2 &&
       (let r3 := (r2.drop 2).dropWhile jsWhitespace
        startsWithStr "experience" r3 || startsWithStr "work" r3)) ||
     startsWithStr "experience" r2 || startsWithStr "work" r2)

/-- `hasYears`: `/\d+\s*(?:years?|yrs?)\s*(?:of\s*)?(?:experience|work)/i.test(text)`. -/
def hasYears (l : List Char) : Bool :=
  let low := toLowerList l
  (List.range low.length).any fun i => yearsFrom (low.drop i)

/-- The `educationKeywords` list of `calculateAtsScore`. -/
def educationKeywords : List String :=
  ["education", "university", "college", "degree", "bachelor", "master",
   "phd", "diploma", "certification"]

/-- `educationKeywords.some(keyword => text.toLowerCase().includes(keyword))`. -/
def hasEducationKeyword (l : List Char) : Bool :=
  educationKeywords.any fun s => includesStr (toLowerList l) s

/-- The alternatives of the degree regex
`/\b(bachelor|master|phd|b\.s\.|m\.s\.|b\.tech|m\.tech|b\.eng|m\.eng)\b/i`. -/
def degreeWords : List String :=
  ["bachelor", "master", "phd", "b.s.", "m.s.", "b.tech", "m.tech",
   "b.eng", "m.eng"]

/-- `hasDegree`: the degree regex above, tested with the `i` flag; the word
boundaries are evaluated on the (lowercased) text — lowercasing does not
change word-character status. -/
def hasDegree (l : List Char) : Bool :=
  let low := toLowerList l
  degreeWords.any fun w =>
    (List.range (low.length + 1)).any fun i =>
      startsWithStr w (low.drop i) &&
      wordBoundaryAt low i && wordBoundaryAt low (i + w.toList.length)

/-- The `actionVerbs` list of `calculateAtsScore`. -/
def actionVerbs : List String :=
  ["managed", "developed", "implemented", "created", "led", "designed",
   "built", "achieved", "improved", "increased", "reduced", "optimized",
   "launched", "coordinated", "trained", "mentored", "analyzed",
   "researched", "presented", "negotiated"]

/-- `actionVerbs.filter(verb => text.toLowerCase().includes(verb)).length`. -/
def foundActionVerbsCount (l : List Char) : Nat :=
  (actionVerbs.filter fun s => includesStr (toLowerList l) s).length

/-- `hasSections`:
`text.toLowerCase().includes('summary') || text.toLowerCase().includes('objective')`. -/
def hasSections (l : List Char) : Bool :=
  includesStr (toLowerList l) "summary" || includesStr (toLowerList l) "objective"

/-- The bullet characters of the regex `/[•·▪▫‣⁃]/`. -/
def bulletChar (c : Char) : Bool :=
  c = '•' || c = '·' || c = '▪' || c = '▫' || c = '‣' || c = '⁃'

/-- Position `p` is a line start for the JavaScript `m` flag: the start of
the string or just after a line terminator. -/
def lineStartAt (l : List Char) (p : Nat) : Bool :=
  p = 0 ||
  (let c := l.getD (p - 1) ' '
   c = '\n' || c = '\r' || c = '\u2028' || c = '\u2029')

/-- A match of `\s*[-*]\s` starting at the head of `l`: the `\s*` is
followed by `-` or `*`, so it consumes the whole whitespace run. -/
def bulletLineFrom (l : List Char) : Bool :=
  match l.dropWhile jsWhitespace with
  | c :: d :: _ => (c = '-' || c = '*') && jsWhitespace d
  | _ => false

/-- `hasBulletPoints`:
`/[•·▪▫‣⁃]/.test(text) || /^\s*[-*]\s/m.test(text)`. -/
def hasBulletPoints (l : List Char) : Bool :=
  l.any bulletChar ||
  (List.range (l.length + 1)).any fun p =>
    lineStartAt l p && bulletLineFrom (l.drop p)

/-- The pattern-matching results that `calculateAtsScore` derives from its
input text before assigning points. -/
structure AtsFeatures where
  wordCount : Nat
  hasEmail : Bool
  hasPhone : Bool
  hasLinkedIn : Bool
  foundTechnical : Nat
  foundSoft : Nat
  hasExperience : Bool
  hasYears : Bool
  hasEducation : Bool
  hasDegree : Bool
  foundActionVerbs : Nat
  hasSections : Bool
  hasBulletPoints : Bool
deriving DecidableEq

/-- The feature-extraction half of `calculateAtsScore`: every regex test,
keyword count and the word count, applied to the input text. -/
def extractFeatures (text : List Char) : AtsFeatures where
  wordCount := countWords text
  hasEmail := hasEmail text
  hasPhone := hasPhone text
  hasLinkedIn := hasLinkedIn text
  foundTechnical := foundTechnicalCount text
  foundSoft := foundSoftCount text
  hasExperience := hasExperienceKeyword text
  hasYears := hasYears text
  hasEducation := hasEducationKeyword text
  hasDegree := hasDegree text
  foundActionVerbs := foundActionVerbsCount text
  hasSections := hasSections text
  hasBulletPoints := hasBulletPoints text

/-- One entry of the `feedback` object of `calculateAtsScore` (the
human-readable `message` string is presentation only and is omitted). -/
structure CategoryFeedback where
  score : ℚ
  max : ℚ
deriving DecidableEq

/-- The seven-category `feedback` object of `calculateAtsScore`. -/
structure AtsBreakdown where
  length : CategoryFeedback
  contact : CategoryFeedback
  skills : CategoryFeedback
  experience : CategoryFeedback
  education : CategoryFeedback
  actionVerbs : CategoryFeedback
  formatting : CategoryFeedback
deriving DecidableEq

/-- The value returned by `calculateAtsScore`:
`{ total: Math.round(totalScore), max: maxScore, breakdown: feedback }`. -/
structure AtsResult where
  total : ℤ
  max : ℚ
  breakdown : AtsBreakdown
deriving DecidableEq

/-- JavaScript `Math.round`: round half toward positive infinity, that is
`⌊q + 1/2⌋` (the two disagree only on negative half-integers via `-0`,
which cannot arise here). -/
def jsRound (q : ℚ) : ℤ := Rat.floor (q + 1 / 2)

/-- JavaScript `Math.min` on two numbers. -/
def jsMin (a b : ℚ) : ℚ := if a ≤ b then a else b

/-- The length branch of `calculateAtsScore` (section 1, 15 points):
300 or more words earn 15, 200 or more earn 10, anything shorter earns 5. -/
def lengthScore (f : AtsFeatures) : ℚ :=
  if f.wordCount ≥ 300 then 15 else if f.wordCount ≥ 200 then 10 else 5

/-- `contactScore` of `calculateAtsScore` (section 2, 10 points):
4 for an e-mail, 4 for a phone number, 2 for a LinkedIn mention. -/
def contactScore (f : AtsFeatures) : ℚ :=
  (if f.hasEmail then 4 else 0) + (if f.hasPhone then 4 else 0) +
  (if f.hasLinkedIn then 2 else 0)

/-- `skillsScore` of `calculateAtsScore` (section 3, 20 points):
`Math.min((foundTechnical * 2) + (foundSoft * 1), 20)`. -/
def skillsScore (f : AtsFeatures) : ℚ :=
  jsMin ((f.foundTechnical : ℚ) * 2 + (f.foundSoft : ℚ) * 1) 20

/-- `experienceScore` of `calculateAtsScore` (section 4, 20 points):
10 for an experience keyword, 10 for a years-of-experience phrase. -/
def experienceScore (f : AtsFeatures) : ℚ :=
  (if f.hasExperience then 10 else 0) + (if f.hasYears then 10 else 0)

/-- `educationScore` of `calculateAtsScore` (section 5, 15 points):
8 for an education keyword, 7 for a degree phrase. -/
def educationScore (f : AtsFeatures) : ℚ :=
  (if f.hasEducation then 8 else 0) + (if f.hasDegree then 7 else 0)

/-- `actionVerbsScore` of `calculateAtsScore` (section 6, 10 points):
`Math.min(foundActionVerbs * 0.5, 10)`. -/
def actionVerbsScore (f : AtsFeatures) : ℚ :=
  jsMin ((f.foundActionVerbs : ℚ) * (1 / 2)) 10

/-- `formattingScore` of `calculateAtsScore` (section 7, 10 points):
5 for a summary/objective section, 5 for bullet points. -/
def formattingScore (f : AtsFeatures) : ℚ :=
  (if f.hasSections then 5 else 0) + (if f.hasBulletPoints then 5 else 0)

/-- The running `totalScore` of `calculateAtsScore` after all seven
sections and before the final clamp. -/
def totalScoreRaw (f : AtsFeatures) : ℚ :=
  lengthScore f + contactScore f + skillsScore f + experienceScore f +
  educationScore f + actionVerbsScore f + formattingScore f

/-- The point-assignment half of `calculateAtsScore`: the seven scoring
sections, the final clamp `totalScore = Math.min(totalScore, maxScore)`
with `maxScore = 100`, and the returned object
`{ total: Math.round(totalScore), max: maxScore, breakdown: feedback }`. -/
def scoreFromFeatures (f : AtsFeatures) : AtsResult where
  total := jsRound (jsMin (totalScoreRaw f) 100)
  max := 100
  breakdown :=
    { length := ⟨lengthScore f, 15⟩
      contact := ⟨contactScore f, 10⟩
      skills := ⟨skillsScore f, 20⟩
      experience := ⟨experienceScore f, 20⟩
      education := ⟨educationScore f, 15⟩
      actionVerbs := ⟨actionVerbsScore f, 10⟩
      formatting := ⟨formattingScore f, 10⟩ }

/-- The ATS scoring algorithm of the `ResumeScore` page: pattern matching
followed by point assignment. -/
def calculateAtsScore (text : List Char) : AtsResult :=
  scoreFromFeatures (extractFeatures text)


/-- JavaScript `Math.max` on two numbers. -/
def jsMax (a b : ℚ) : ℚ := if a ≤ b then b else a

/-- `String.prototype.trim` on a whole string. -/
def jsTrimStr (s : String) : String := String.mk (jsTrim s.data)

/-! ## The `ResumeUpload` page

`ResumeUpload.jsx` contains two page variants, each with its own
`handleManualTextSubmit`: the first requires at least 600 characters of
trimmed resume text and navigates to `/interview` on success; the second
requires at least 1000 characters and, on success, stores the text and
enables the ATS-checker panel instead of navigating. -/

/-- The screen state read and written by `handleManualTextSubmit`: the
resume text stored in the interview context, the error banner, the route
navigated to (if any) and the ATS-checker flag of the second variant. -/
structure UploadState where
  resumeText : Option (List Char)
  error : String
  navigatedTo : Option String
  showAtsChecker : Bool
deriving DecidableEq

/-- `handleManualTextSubmit` of the first `ResumeUpload` variant
(600-character minimum). -/
def handleManualTextSubmit600 (resumeTextInput : List Char) (s : UploadState) : UploadState :=
  if jsTrim resumeTextInput = [] then
    { s with error := "Please enter your resume text before proceeding." }
  else if (jsTrim resumeTextInput).length < 600 then
    { s with error := "Resume text seems too short. Please ensure you've copied the complete resume (minimum 600 characters required)." }
  else
    { s with resumeText := some (jsTrim resumeTextInput), navigatedTo := some "/interview" }

/-- `handleManualTextSubmit` of the second `ResumeUpload` variant
(1000-character minimum, no navigation: it reveals the ATS checker). -/
def handleManualTextSubmit1000 (resumeTextInput : List Char) (s : UploadState) : UploadState :=
  if jsTrim resumeTextInput = [] then
    { s with error := "Please enter your resume text before proceeding." }
  else if (jsTrim resumeTextInput).length < 1000 then
    { s with error := "Resume text seems too short. Please ensure you've copied the complete resume (minimum 1000 characters required)." }
  else
    { s with resumeText := some (jsTrim resumeTextInput), showAtsChecker := true,
             error := "✅ Resume text submitted successfully! You can now check your ATS score or continue to interview." }

/-! ## The `ChatWindow` page -/

/-- A chat message sender. -/
inductive Sender where
  | bot
  | user
deriving DecidableEq

/-- The hard-coded local question list of `ChatWindow`. -/
def questions : List String :=
  ["Tell me about yourself.",
   "Why are you interested in this role?",
   "Explain your latest project or work experience.",
   "What are your greatest strengths?",
   "Tell me about a challenge you faced and how you handled it.",
   "Where do you see yourself in five years?"]

/-- The welcome message shown when the interview starts. -/
def welcomeMessage : String := "Welcome! Let's start your mock interview."

/-- The per-category running scores kept in the interview context
(`scoreBreakdown`). -/
structure ScoreBreakdown where
  communication : ℚ
  confidence : ℚ
  technical : ℚ
  pace : ℚ
  fillerWords : ℚ
deriving DecidableEq

/-- The three fields of the `analyzeSpeech` result that
`handleUserResponse` reads.  `analyzeSpeech` itself lives in
`utils/speech.js` and is treated as an opaque input here: the claims about
`handleUserResponse` hold for every value it may produce. -/
structure SpeechAnalysis where
  clarityScore : ℚ
  confidenceScore : ℚ
  fillerRatio : ℚ

/-- The `ChatWindow` state touched by the answer-handling code: the local
question index, the chat transcript, the progress bar value, the running
score breakdown and the route navigated to (if any). -/
structure ChatState where
  currentIndex : Nat
  messages : List (Sender × String)
  progress : ℚ
  scoreBreakdown : ScoreBreakdown
  navigatedTo : Option String

/-- The outcome of the `api.submitInterviewAnswer` call as dispatched on
by `handleUserResponse`: a thrown error or rejected promise, a response
that is missing or not successful, a successful response with neither
`completed` nor `question`, a successful `completed` response (with its
optional message), or a successful response carrying the next question. -/
inductive BackendOutcome where
  | requestError
  | notSuccess
  | successNoQuestion
  | completed (message : Option String)
  | nextQuestion (question : String)
deriving DecidableEq

/-- The outcomes on which `handleUserResponse` takes its fallback path to
`handleLocalQuestionProgression`. -/
def fallsBack : BackendOutcome → Bool
  | .requestError => true
  | .notSuccess => true
  | .successNoQuestion => true
  | .completed _ => false
  | .nextQuestion _ => false

/-- `handleLocalQuestionProgression` of `ChatWindow`: while questions
remain, advance the index, show the next hard-coded question and bump the
progress bar; after the last question, navigate to `/summary`.  (The
`setTimeout` delays and the text-to-speech call are timing and audio
plumbing with no effect on this state.) -/
def handleLocalQuestionProgression (s : ChatState) : ChatState :=
  if s.currentIndex < questions.length - 1 then
    let nextIndex := s.currentIndex + 1
    let nextQuestion := questions.getD nextIndex ""
    { s with
      currentIndex := nextIndex
      messages := s.messages ++ [(Sender.bot, nextQuestion)]
      progress := jsMin (s.progress + 17) 100 }
  else
    { s with navigatedTo := some "/summary" }

/-- The `setScoreBreakdown` update of `handleUserResponse`: communication,
confidence and filler-words are each replaced by the rounded average of
the previous value and the newly analyzed value. -/
def updateScoreBreakdown (prev : ScoreBreakdown) (analysis : SpeechAnalysis) : ScoreBreakdown :=
  { prev with
    communication := (jsRound ((prev.communication + analysis.clarityScore) / 2) : ℚ)
    confidence := (jsRound ((prev.confidence + analysis.confidenceScore) / 2) : ℚ)
    fillerWords := (jsRound ((prev.fillerWords + (100 - analysis.fillerRatio * 100)) / 2) : ℚ) }

/-- `handleUserResponse` of `ChatWindow`: ignore blank input; otherwise
record the user message, fold the speech analysis into the score
breakdown, and dispatch on the backend outcome — completed interviews
navigate to `/summary`, a delivered next question is appended to the chat,
and every failure shape falls back to the local question progression.
(`response.message || "..."` is modelled by `Option.getD`: the default is
used exactly when the message is absent or empty.) -/
def handleUserResponse (text : String) (analysis : SpeechAnalysis)
    (outcome : BackendOutcome) (s : ChatState) : ChatState :=
  let cleanText := jsTrimStr text
  if cleanText = "" then s else
  let s1 : ChatState :=
    { s with
      messages := s.messages ++ [(Sender.user, cleanText)]
      scoreBreakdown := updateScoreBreakdown s.scoreBreakdown analysis }
  match outcome with
  | .completed msg =>
    { s1 with
      messages := s1.messages ++
        [(Sender.bot, msg.getD "Interview completed! Thank you for your time.")]
      navigatedTo := some "/summary" }
  | .nextQuestion q =>
    { s1 with
      messages := s1.messages ++ [(Sender.bot, q)]
      progress := jsMin (s1.progress + 17) 100 }
  | _ => handleLocalQuestionProgression s1

/-- The `ChatWindow` state after the initialization effect has taken its
fallback branch (backend unreachable): the welcome message and the first
hard-coded question are shown, the index is 0 and the progress bar is at
its initial 15.  The initial score breakdown comes from the interview
context and is a parameter. -/
def initialChatFallback (b : ScoreBreakdown) : ChatState :=
  { currentIndex := 0
    messages := [(Sender.bot, welcomeMessage), (Sender.bot, questions.getD 0 "")]
    progress := 15
    scoreBreakdown := b
    navigatedTo := none }

/-- An interview session that starts on the local fallback and answers
`n` times, with the `k`-th answer text, speech analysis and backend
outcome given by the three argument functions. -/
def localSession (b : ScoreBreakdown) (answer : Nat → String)
    (analysis : Nat → SpeechAnalysis) (outcome : Nat → BackendOutcome) : Nat → ChatState
  | 0 => initialChatFallback b
  | n + 1 =>
    handleUserResponse (answer n) (analysis n) (outcome n)
      (localSession b answer analysis outcome n)

/-- The texts of the bot messages of a transcript, in order. -/
def botTexts (ms : List (Sender × String)) : List String :=
  (ms.filter fun m => m.1 == Sender.bot).map Prod.snd

/-! ## The `Summary` page -/

/-- The overall-score effect of the `Summary` page: when the stored
overall score is still 0 and some breakdown value is positive, set the
overall score to the rounded mean of the five category scores (with
filler-words converted by `100 - fillerWords`, clamped at 0); otherwise
leave it unchanged.  The `|| 0` fallbacks of the source are identities
here because every modelled breakdown field is a number. -/
def summaryOverallScore (overallScore : ℚ) (b : ScoreBreakdown) : ℚ :=
  if overallScore = 0 ∧
      ([b.communication, b.confidence, b.technical, b.pace, b.fillerWords].any
        fun v => decide (0 < v)) = true then
    let scores : List ℚ :=
      [b.communication, b.technical, b.confidence,
       jsMax 0 (100 - b.fillerWords), b.pace]
    ((jsRound (scores.foldl (· + ·) 0 / (scores.length : ℚ)) : ℤ) : ℚ)
  else overallScore

/-! ## Concrete sample texts used as witnesses and counterexamples -/

/-- A resume text with an e-mail, a ten-digit phone number and exactly
five technical-skill keywords (and no soft-skill keywords). -/
def sampleResumeA : List Char := "a@b.co 1234567890 html css sql aws git".toList

/-- A resume text with no e-mail, no phone number and no technical-skill
keyword, but all ten soft-skill keywords. -/
def sampleResumeB : List Char :=
  "communication leadership teamwork problem solving critical thinking creativity adaptability time management collaboration project management".toList

/-! ## Lemmas about the JavaScript arithmetic helpers -/

theorem jsRound_eq_floor (q : ℚ) : jsRound q = ⌊q + 1 / 2⌋ := by
  rw [jsRound, Rat.floor_def']
  exact Rat.floor_def.symm

theorem jsRound_nonneg {q : ℚ} (h : 0 ≤ q) : 0 ≤ jsRound q := by
  rw [jsRound_eq_floor]
  exact Int.le_floor.mpr (by push_cast; linarith)

theorem jsRound_le_hundred {q : ℚ} (h : q ≤ 100) : jsRound q ≤ 100 := by
  rw [jsRound_eq_floor]
  have h2 : ⌊q + 1 / 2⌋ < 101 := Int.floor_lt.mpr (by push_cast; linarith)
  omega

theorem jsMin_le_left (a b : ℚ) : jsMin a b ≤ a := by
  unfold jsMin; split
  · exact le_refl a
  · next h => exact (not_le.mp h).le

theorem jsMin_le_right (a b : ℚ) : jsMin a b ≤ b := by
  unfold jsMin; split
  · next h => exact h
  · exact le_refl b

theorem le_jsMin {a b c : ℚ} (h1 : c ≤ a) (h2 : c ≤ b) : c ≤ jsMin a b := by
  unfold jsMin; split
  · exact h1
  · exact h2

/-! ## Bounds of the seven category scores -/

theorem lengthScore_bounds (f : AtsFeatures) :
    5 ≤ lengthScore f ∧ lengthScore f ≤ 15 := by
  unfold lengthScore; split_ifs <;> norm_num

theorem contactScore_bounds (f : AtsFeatures) :
    0 ≤ contactScore f ∧ contactScore f ≤ 10 := by
  unfold contactScore; split_ifs <;> norm_num

theorem skillsScore_bounds (f : AtsFeatures) :
    0 ≤ skillsScore f ∧ skillsScore f ≤ 20 := by
  unfold skillsScore
  exact ⟨le_jsMin (by positivity) (by norm_num), jsMin_le_right _ _⟩

theorem experienceScore_bounds (f : AtsFeatures) :
    0 ≤ experienceScore f ∧ experienceScore f ≤ 20 := by
  unfold experienceScore; split_ifs <;> norm_num

theorem educationScore_bounds (f : AtsFeatures) :
    0 ≤ educationScore f ∧ educationScore f ≤ 15 := by
  unfold educationScore; split_ifs <;> norm_num

theorem actionVerbsScore_bounds (f : AtsFeatures) :
    0 ≤ actionVerbsScore f ∧ actionVerbsScore f ≤ 10 := by
  unfold actionVerbsScore
  exact ⟨le_jsMin (by positivity) (by norm_num), jsMin_le_right _ _⟩

theorem formattingScore_bounds (f : AtsFeatures) :
    0 ≤ formattingScore f ∧ formattingScore f ≤ 10 := by
  unfold formattingScore; split_ifs <;> norm_num

theorem totalScoreRaw_nonneg (f : AtsFeatures) : 0 ≤ totalScoreRaw f := by
  unfold totalScoreRaw
  linarith [(lengthScore_bounds f).1, (contactScore_bounds f).1,
    (skillsScore_bounds f).1, (experienceScore_bounds f).1,
    (educationScore_bounds f).1, (actionVerbsScore_bounds f).1,
    (formattingScore_bounds f).1]

/-! ## The claims about `calculateAtsScore` -/

/-- **C1.** For every input text, the total ATS score returned by
`calculateAtsScore` lies in the interval [0, 100]: it is never negative
and never exceeds 100. -/
theorem ats_total_in_range (text : List Char) :
    0 ≤ (calculateAtsScore text).total ∧ (calculateAtsScore text).total ≤ 100 := by
  constructor
  · exact jsRound_nonneg (le_jsMin (totalScoreRaw_nonneg _) (by norm_num))
  · exact jsRound_le_hundred (jsMin_le_right _ _)

/-- **C2.** For every input text, each category sub-score in the breakdown
returned by `calculateAtsScore` is at most its stated maximum: length ≤ 15,
contact ≤ 10, skills ≤ 20, experience ≤ 20, education ≤ 15,
action verbs ≤ 10 and formatting ≤ 10; that is,
`feedback[k].score ≤ feedback[k].max` for every category `k`. -/
theorem ats_breakdown_scores_le_max (text : List Char) :
    ((calculateAtsScore text).breakdown.length.score ≤
        (calculateAtsScore text).breakdown.length.max ∧
      (calculateAtsScore text).breakdown.length.max = 15) ∧
    ((calculateAtsScore text).breakdown.contact.score ≤
        (calculateAtsScore text).breakdown.contact.max ∧
      (calculateAtsScore text).breakdown.contact.max = 10) ∧
    ((calculateAtsScore text).breakdown.skills.score ≤
        (calculateAtsScore text).breakdown.skills.max ∧
      (calculateAtsScore text).breakdown.skills.max = 20) ∧
    ((calculateAtsScore text).breakdown.experience.score ≤
        (calculateAtsScore text).breakdown.experience.max ∧
      (calculateAtsScore text).breakdown.experience.max = 20) ∧
    ((calculateAtsScore text).breakdown.education.score ≤
        (calculateAtsScore text).breakdown.education.max ∧
      (calculateAtsScore text).breakdown.education.max = 15) ∧
    ((calculateAtsScore text).breakdown.actionVerbs.score ≤
        (calculateAtsScore text).breakdown.actionVerbs.max ∧
      (calculateAtsScore text).breakdown.actionVerbs.max = 10) ∧
    ((calculateAtsScore text).breakdown.formatting.score ≤
        (calculateAtsScore text).breakdown.formatting.max ∧
      (calculateAtsScore text).breakdown.formatting.max = 10) := by
  exact ⟨⟨(lengthScore_bounds _).2, rfl⟩, ⟨(contactScore_bounds _).2, rfl⟩,
    ⟨(skillsScore_bounds _).2, rfl⟩, ⟨(experienceScore_bounds _).2, rfl⟩,
    ⟨(educationScore_bounds _).2, rfl⟩, ⟨(actionVerbsScore_bounds _).2, rfl⟩,
    ⟨(formattingScore_bounds _).2, rfl⟩⟩

/-- **C3.** For every input text, the total returned by `calculateAtsScore`
equals the rounded, 100-clamped sum of exactly the seven weighted category
sub-scores — length, contact, skills, experience, education, action verbs,
formatting — with no other contribution:
`total = Math.round(Math.min(length + contact + skills + experience +
education + actionVerbs + formatting, 100))`. -/
theorem ats_total_eq_round_min_sum (text : List Char) :
    (calculateAtsScore text).total =
      jsRound (jsMin
        ((calculateAtsScore text).breakdown.length.score +
          (calculateAtsScore text).breakdown.contact.score +
          (calculateAtsScore text).breakdown.skills.score +
          (calculateAtsScore text).breakdown.experience.score +
          (calculateAtsScore text).breakdown.education.score +
          (calculateAtsScore text).breakdown.actionVerbs.score +
          (calculateAtsScore text).breakdown.formatting.score) 100) := rfl

/-- **C5.** An empty or near-empty resume text (the empty string, or text
matching no scoring rule) receives only the minimum length-branch points:
`calculateAtsScore` returns a total of 5, far below the 100 maximum. -/
theorem ats_minimal_text_scores_low :
    (calculateAtsScore "".toList).total = 5 ∧
    (calculateAtsScore "hello there".toList).total = 5 ∧ (5 : ℤ) < 100 := by
  have h1 : extractFeatures "".toList =
      ⟨0, false, false, false, 0, 0, false, false, false, false, 0, false, false⟩ := by
    decide
  have h2 : extractFeatures "hello there".toList =
      ⟨2, false, false, false, 0, 0, false, false, false, false, 0, false, false⟩ := by
    decide
  refine ⟨?_, ?_, by norm_num⟩
  · show (scoreFromFeatures (extractFeatures "".toList)).total = 5
    rw [h1]
    show jsRound (jsMin (totalScoreRaw _) 100) = 5
    norm_num [totalScoreRaw, lengthScore, contactScore, skillsScore,
      experienceScore, educationScore, actionVerbsScore, formattingScore,
      jsMin, jsRound_eq_floor]
  · show (scoreFromFeatures (extractFeatures "hello there".toList)).total = 5
    rw [h2]
    show jsRound (jsMin (totalScoreRaw _) 100) = 5
    norm_num [totalScoreRaw, lengthScore, contactScore, skillsScore,
      experienceScore, educationScore, actionVerbsScore, formattingScore,
      jsMin, jsRound_eq_floor]

/-- **C9.** The ATS scoring function is deterministic and stateless: its
embedding is a pure function of the input text alone (the source reads
nothing but its argument and local constants), so any two runs on the same
input return identical totals and identical category sub-scores. -/
theorem ats_deterministic (t1 t2 : List Char) (h : t1 = t2) :
    calculateAtsScore t1 = calculateAtsScore t2 := by rw [h]

/-- Witness for **C9** at a concrete input. -/
theorem ats_deterministic_witness :
    sampleResumeA = sampleResumeA ∧
    calculateAtsScore sampleResumeA = calculateAtsScore sampleResumeA :=
  ⟨rfl, ats_deterministic sampleResumeA sampleResumeA rfl⟩

/-! ## The relative-scoring claim (contact and skills sub-scores) -/

theorem foundSoftCount_le_ten (l : List Char) : foundSoftCount l ≤ 10 := by
  unfold foundSoftCount
  exact le_trans (List.length_filter_le _ _) (by rfl)

theorem skillsScore_ge_of_technical {f : AtsFeatures}
    (h : 5 ≤ f.foundTechnical) : 10 ≤ skillsScore f := by
  unfold skillsScore
  refine le_jsMin ?_ (by norm_num)
  have h1 : (5 : ℚ) ≤ (f.foundTechnical : ℚ) := by exact_mod_cast h
  have h2 : (0 : ℚ) ≤ (f.foundSoft : ℚ) := Nat.cast_nonneg _
  linarith

theorem skillsScore_le_of_no_technical {f : AtsFeatures}
    (h1 : f.foundTechnical = 0) (h2 : f.foundSoft ≤ 10) : skillsScore f ≤ 10 := by
  unfold skillsScore
  refine le_trans (jsMin_le_left _ _) ?_
  rw [h1]
  have h3 : (f.foundSoft : ℚ) ≤ 10 := by exact_mod_cast h2
  push_cast
  linarith

set_option maxRecDepth 100000

/-- **C4, counterexample.** The claim fails as stated: `sampleResumeA`
matches the e-mail regex, matches a phone pattern and contains five
technical-skill keywords, while `sampleResumeB` matches none of these —
yet the skills sub-score of `sampleResumeB` is not strictly lower (both
are 10: five technical keywords · 2 against ten soft-skill keywords · 1,
both capped computations yielding the same value). -/
theorem ats_contact_skills_counterexample :
    hasEmail sampleResumeA = true ∧ hasPhone sampleResumeA = true ∧
    5 ≤ foundTechnicalCount sampleResumeA ∧
    hasEmail sampleResumeB = false ∧ hasPhone sampleResumeB = false ∧
    foundTechnicalCount sampleResumeB = 0 ∧
    ¬((calculateAtsScore sampleResumeB).breakdown.skills.score <
        (calculateAtsScore sampleResumeA).breakdown.skills.score) := by
  have hA : (calculateAtsScore sampleResumeA).breakdown.skills.score = 10 := by
    show skillsScore (extractFeatures sampleResumeA) = 10
    unfold skillsScore
    rw [show (extractFeatures sampleResumeA).foundTechnical = 5 from by decide,
        show (extractFeatures sampleResumeA).foundSoft = 0 from by decide]
    norm_num [jsMin]
  have hB : (calculateAtsScore sampleResumeB).breakdown.skills.score = 10 := by
    show skillsScore (extractFeatures sampleResumeB) = 10
    unfold skillsScore
    rw [show (extractFeatures sampleResumeB).foundTechnical = 0 from by decide,
        show (extractFeatures sampleResumeB).foundSoft = 10 from by decide]
    norm_num [jsMin]
  refine ⟨by decide, by decide, by decide, by decide, by decide, by decide, ?_⟩
  rw [hA, hB]
  exact lt_irrefl 10

/-- **C4 (amended).** For every resume text `t1` that matches the e-mail
regex, matches a phone pattern and contains at least 5 technical-skill
keywords, and every `t2` containing none of these, `t1` scores strictly
higher than `t2` on the contact sub-score, and at least as high (equality
being possible) on the skills sub-score. -/
theorem ats_contact_skills_dominance (t1 t2 : List Char)
    (he1 : hasEmail t1 = true) (hp1 : hasPhone t1 = true)
    (ht1 : 5 ≤ foundTechnicalCount t1)
    (he2 : hasEmail t2 = false) (hp2 : hasPhone t2 = false)
    (ht2 : foundTechnicalCount t2 = 0) :
    (calculateAtsScore t2).breakdown.contact.score <
      (calculateAtsScore t1).breakdown.contact.score ∧
    (calculateAtsScore t2).breakdown.skills.score ≤
      (calculateAtsScore t1).breakdown.skills.score := by
  constructor
  · show contactScore (extractFeatures t2) < contactScore (extractFeatures t1)
    unfold contactScore
    rw [show (extractFeatures t1).hasEmail = true from he1,
        show (extractFeatures t1).hasPhone = true from hp1,
        show (extractFeatures t2).hasEmail = false from he2,
        show (extractFeatures t2).hasPhone = false from hp2]
    cases (extractFeatures t1).hasLinkedIn <;>
      cases (extractFeatures t2).hasLinkedIn <;> norm_num
  · show skillsScore (extractFeatures t2) ≤ skillsScore (extractFeatures t1)
    have g1 : 10 ≤ skillsScore (extractFeatures t1) :=
      skillsScore_ge_of_technical ht1
    have g2 : skillsScore (extractFeatures t2) ≤ 10 :=
      skillsScore_le_of_no_technical ht2 (foundSoftCount_le_ten t2)
    linarith

/-- Witness for the amended **C4** at the concrete sample resumes. -/
theorem ats_contact_skills_dominance_witness :
    (hasEmail sampleResumeA = true ∧ hasPhone sampleResumeA = true ∧
      5 ≤ foundTechnicalCount sampleResumeA ∧
      hasEmail sampleResumeB = false ∧ hasPhone sampleResumeB = false ∧
      foundTechnicalCount sampleResumeB = 0) ∧
    ((calculateAtsScore sampleResumeB).breakdown.contact.score <
        (calculateAtsScore sampleResumeA).breakdown.contact.score ∧
      (calculateAtsScore sampleResumeB).breakdown.skills.score ≤
        (calculateAtsScore sampleResumeA).breakdown.skills.score) :=
  ⟨⟨by decide, by decide, by decide, by decide, by decide, by decide⟩,
    ats_contact_skills_dominance sampleResumeA sampleResumeB (by decide)
      (by decide) (by decide) (by decide) (by decide) (by decide)⟩

/-! ## The minimum-length check of `ResumeUpload` -/

/-- **C6.** Malformed or missing resume text is rejected by the
minimum-length check: in both `ResumeUpload` variants (600- and
1000-character minima), an input whose trimmed length is below the minimum
makes `handleManualTextSubmit` set an error message and return without
storing the resume text or advancing the flow — the stored resume text,
the navigation target and the ATS-checker flag are all unchanged. -/
theorem resume_min_length_rejects (input : List Char) (s : UploadState) :
    ((jsTrim input).length < 600 →
      (handleManualTextSubmit600 input s).resumeText = s.resumeText ∧
      (handleManualTextSubmit600 input s).navigatedTo = s.navigatedTo ∧
      (handleManualTextSubmit600 input s).showAtsChecker = s.showAtsChecker ∧
      (handleManualTextSubmit600 input s).error ≠ "") ∧
    ((jsTrim input).length < 1000 →
      (handleManualTextSubmit1000 input s).resumeText = s.resumeText ∧
      (handleManualTextSubmit1000 input s).navigatedTo = s.navigatedTo ∧
      (handleManualTextSubmit1000 input s).showAtsChecker = s.showAtsChecker ∧
      (handleManualTextSubmit1000 input s).error ≠ "") := by
  constructor
  · intro h
    unfold handleManualTextSubmit600
    split_ifs with h1
    · refine ⟨rfl, rfl, rfl, ?_⟩
      show ("Please enter your resume text before proceeding." : String) ≠ ""
      decide
    · refine ⟨rfl, rfl, rfl, ?_⟩
      show ("Resume text seems too short. Please ensure you've copied the complete resume (minimum 600 characters required)." : String) ≠ ""
      decide
  · intro h
    unfold handleManualTextSubmit1000
    split_ifs with h1
    · refine ⟨rfl, rfl, rfl, ?_⟩
      show ("Please enter your resume text before proceeding." : String) ≠ ""
      decide
    · refine ⟨rfl, rfl, rfl, ?_⟩
      show ("Resume text seems too short. Please ensure you've copied the complete resume (minimum 1000 characters required)." : String) ≠ ""
      decide

/-- Witness for **C6**: a 3-character input against a sample state. -/
theorem resume_min_length_rejects_witness :
    (jsTrim "abc".toList).length < 600 ∧
    ((handleManualTextSubmit600 "abc".toList ⟨none, "", none, false⟩).resumeText =
        (⟨none, "", none, false⟩ : UploadState).resumeText ∧
      (handleManualTextSubmit600 "abc".toList ⟨none, "", none, false⟩).navigatedTo =
        (⟨none, "", none, false⟩ : UploadState).navigatedTo ∧
      (handleManualTextSubmit600 "abc".toList ⟨none, "", none, false⟩).showAtsChecker =
        (⟨none, "", none, false⟩ : UploadState).showAtsChecker ∧
      (handleManualTextSubmit600 "abc".toList ⟨none, "", none, false⟩).error ≠ "") :=
  ⟨by decide,
    (resume_min_length_rejects "abc".toList ⟨none, "", none, false⟩).1 (by decide)⟩

/-! ## The overall-score summarization of `Summary` -/

/-- **C8.** The five per-category scores are summarized into one overall
score as the rounded arithmetic mean of
`[communication, technical, confidence, max(0, 100 − fillerWords), pace]`,
and this summarization is applied exactly when the stored overall score
is 0 and at least one breakdown value is positive — otherwise the stored
overall score is left unchanged. -/
theorem summary_overall_is_rounded_mean (o : ℚ) (b : ScoreBreakdown) :
    (o = 0 →
      (0 < b.communication ∨ 0 < b.confidence ∨ 0 < b.technical ∨
        0 < b.pace ∨ 0 < b.fillerWords) →
      summaryOverallScore o b =
        ((jsRound ((b.communication + b.technical + b.confidence +
          jsMax 0 (100 - b.fillerWords) + b.pace) / 5) : ℤ) : ℚ)) ∧
    (¬(o = 0 ∧ (0 < b.communication ∨ 0 < b.confidence ∨ 0 < b.technical ∨
        0 < b.pace ∨ 0 < b.fillerWords)) →
      summaryOverallScore o b = o) := by
  constructor
  · intro h0 hpos
    have hany : ([b.communication, b.confidence, b.technical, b.pace,
        b.fillerWords].any fun v => decide (0 < v)) = true := by
      simp only [List.any_cons, List.any_nil, Bool.or_eq_true,
        decide_eq_true_eq, Bool.or_false]
      tauto
    unfold summaryOverallScore
    rw [if_pos ⟨h0, hany⟩]
    norm_num [List.foldl]
  · intro h
    unfold summaryOverallScore
    rw [if_neg]
    intro hc
    refine h ⟨hc.1, ?_⟩
    have := hc.2
    simp only [List.any_cons, List.any_nil, Bool.or_eq_true,
      decide_eq_true_eq, Bool.or_false] at this
    tauto

/-- Witness for **C8** at a concrete breakdown. -/
theorem summary_overall_is_rounded_mean_witness :
    (0 : ℚ) = 0 ∧
    (0 < (⟨50, 60, 70, 80, 20⟩ : ScoreBreakdown).communication ∨
      0 < (⟨50, 60, 70, 80, 20⟩ : ScoreBreakdown).confidence ∨
      0 < (⟨50, 60, 70, 80, 20⟩ : ScoreBreakdown).technical ∨
      0 < (⟨50, 60, 70, 80, 20⟩ : ScoreBreakdown).pace ∨
      0 < (⟨50, 60, 70, 80, 20⟩ : ScoreBreakdown).fillerWords) ∧
    summaryOverallScore 0 ⟨50, 60, 70, 80, 20⟩ =
      ((jsRound (((⟨50, 60, 70, 80, 20⟩ : ScoreBreakdown).communication +
        (⟨50, 60, 70, 80, 20⟩ : ScoreBreakdown).technical +
        (⟨50, 60, 70, 80, 20⟩ : ScoreBreakdown).confidence +
        jsMax 0 (100 - (⟨50, 60, 70, 80, 20⟩ : ScoreBreakdown).fillerWords) +
        (⟨50, 60, 70, 80, 20⟩ : ScoreBreakdown).pace) / 5) : ℤ) : ℚ) :=
  ⟨rfl, Or.inl (by norm_num),
    (summary_overall_is_rounded_mean 0 ⟨50, 60, 70, 80, 20⟩).1 rfl
      (Or.inl (by norm_num))⟩

/-! ## The frame property of `handleUserResponse` -/

theorem handleLocalQuestionProgression_scoreBreakdown (s : ChatState) :
    (handleLocalQuestionProgression s).scoreBreakdown = s.scoreBreakdown := by
  unfold handleLocalQuestionProgression
  split <;> rfl

/-- **C10.** For every call of `handleUserResponse` with non-empty trimmed
text, the `scoreBreakdown` update modifies only the communication,
confidence and filler-words fields — each set to the rounded average of
its previous value and the newly analyzed value — while the technical and
pace fields retain their previous values, whatever the backend outcome. -/
theorem handleUserResponse_breakdown_frame (text : String)
    (analysis : SpeechAnalysis) (outcome : BackendOutcome) (s : ChatState)
    (h : jsTrimStr text ≠ "") :
    (handleUserResponse text analysis outcome s).scoreBreakdown.technical =
      s.scoreBreakdown.technical ∧
    (handleUserResponse text analysis outcome s).scoreBreakdown.pace =
      s.scoreBreakdown.pace ∧
    (handleUserResponse text analysis outcome s).scoreBreakdown.communication =
      ((jsRound ((s.scoreBreakdown.communication + analysis.clarityScore) / 2) : ℤ) : ℚ) ∧
    (handleUserResponse text analysis outcome s).scoreBreakdown.confidence =
      ((jsRound ((s.scoreBreakdown.confidence + analysis.confidenceScore) / 2) : ℤ) : ℚ) ∧
    (handleUserResponse text analysis outcome s).scoreBreakdown.fillerWords =
      ((jsRound ((s.scoreBreakdown.fillerWords +
        (100 - analysis.fillerRatio * 100)) / 2) : ℤ) : ℚ) := by
  have e : (handleUserResponse text analysis outcome s).scoreBreakdown =
      updateScoreBreakdown s.scoreBreakdown analysis := by
    unfold handleUserResponse
    rw [if_neg h]
    cases outcome <;>
      first
        | rfl
        | exact handleLocalQuestionProgression_scoreBreakdown _
  rw [e]
  exact ⟨rfl, rfl, rfl, rfl, rfl⟩

/-- Witness for **C10** at concrete inputs. -/
theorem handleUserResponse_breakdown_frame_witness :
    jsTrimStr "I built a web app." ≠ "" ∧
    ((handleUserResponse "I built a web app." ⟨80, 70, 1 / 10⟩
        BackendOutcome.requestError
        ⟨0, [], 15, ⟨10, 20, 30, 40, 50⟩, none⟩).scoreBreakdown.technical =
      (⟨10, 20, 30, 40, 50⟩ : ScoreBreakdown).technical ∧
    (handleUserResponse "I built a web app." ⟨80, 70, 1 / 10⟩
        BackendOutcome.requestError
        ⟨0, [], 15, ⟨10, 20, 30, 40, 50⟩, none⟩).scoreBreakdown.pace =
      (⟨10, 20, 30, 40, 50⟩ : ScoreBreakdown).pace ∧
    (handleUserResponse "I built a web app." ⟨80, 70, 1 / 10⟩
        BackendOutcome.requestError
        ⟨0, [], 15, ⟨10, 20, 30, 40, 50⟩, none⟩).scoreBreakdown.communication =
      ((jsRound (((⟨10, 20, 30, 40, 50⟩ : ScoreBreakdown).communication +
        (⟨80, 70, 1 / 10⟩ : SpeechAnalysis).clarityScore) / 2) : ℤ) : ℚ) ∧
    (handleUserResponse "I built a web app." ⟨80, 70, 1 / 10⟩
        BackendOutcome.requestError
        ⟨0, [], 15, ⟨10, 20, 30, 40, 50⟩, none⟩).scoreBreakdown.confidence =
      ((jsRound (((⟨10, 20, 30, 40, 50⟩ : ScoreBreakdown).confidence +
        (⟨80, 70, 1 / 10⟩ : SpeechAnalysis).confidenceScore) / 2) : ℤ) : ℚ) ∧
    (handleUserResponse "I built a web app." ⟨80, 70, 1 / 10⟩
        BackendOutcome.requestError
        ⟨0, [], 15, ⟨10, 20, 30, 40, 50⟩, none⟩).scoreBreakdown.fillerWords =
      ((jsRound (((⟨10, 20, 30, 40, 50⟩ : ScoreBreakdown).fillerWords +
        (100 - (⟨80, 70, 1 / 10⟩ : SpeechAnalysis).fillerRatio * 100)) / 2) : ℤ) : ℚ)) :=
  ⟨by decide,
    handleUserResponse_breakdown_frame "I built a web app." ⟨80, 70, 1 / 10⟩
      BackendOutcome.requestError ⟨0, [], 15, ⟨10, 20, 30, 40, 50⟩, none⟩
      (by decide)⟩

/-! ## The local-fallback question progression of `ChatWindow` -/

theorem botTexts_append (ms1 ms2 : List (Sender × String)) :
    botTexts (ms1 ++ ms2) = botTexts ms1 ++ botTexts ms2 := by
  simp [botTexts, List.filter_append]

theorem botTexts_user (u : String) : botTexts [(Sender.user, u)] = [] := rfl

theorem botTexts_bot (q : String) : botTexts [(Sender.bot, q)] = [q] := rfl

theorem questions_take_concat (i : Nat) (h : i < questions.length) :
    questions.take i ++ [questions.getD i ""] = questions.take (i + 1) := by
  have h6 : i < 6 := h
  interval_cases i <;> rfl

theorem handleUserResponse_fallback_eq (text : String) (analysis : SpeechAnalysis)
    (outcome : BackendOutcome) (s : ChatState) (ho : fallsBack outcome = true)
    (ht : jsTrimStr text ≠ "") :
    handleUserResponse text analysis outcome s =
      handleLocalQuestionProgression
        { s with
          messages := s.messages ++ [(Sender.user, jsTrimStr text)]
          scoreBreakdown := updateScoreBreakdown s.scoreBreakdown analysis } := by
  unfold handleUserResponse
  rw [if_neg ht]
  cases outcome <;> first
    | rfl
    | simp [fallsBack] at ho

/-- **C7.** Whenever the backend request fails (network error, thrown
exception, or a response without success or question), `ChatWindow` falls
back to the fixed local question list: starting from the fallback
initialization, `handleLocalQuestionProgression` presents the six
hard-coded questions in their listed order, one per answered response (the
first is shown at initialization, the remaining five by the first five
answers), and the response after the last question navigates to
`/summary`. -/
theorem chat_local_fallback_presents_questions (b : ScoreBreakdown)
    (answer : Nat → String) (analysis : Nat → SpeechAnalysis)
    (outcome : Nat → BackendOutcome)
    (hfail : ∀ n, fallsBack (outcome n) = true)
    (hne : ∀ n, jsTrimStr (answer n) ≠ "") :
    (∀ n, n ≤ 5 →
      (localSession b answer analysis outcome n).navigatedTo = none ∧
      botTexts (localSession b answer analysis outcome n).messages =
        welcomeMessage :: questions.take (n + 1) ∧
      (localSession b answer analysis outcome n).currentIndex = n) ∧
    (localSession b answer analysis outcome 6).navigatedTo = some "/summary" := by
  have step : ∀ n,
      localSession b answer analysis outcome (n + 1) =
        handleLocalQuestionProgression
          { localSession b answer analysis outcome n with
            messages := (localSession b answer analysis outcome n).messages ++
              [(Sender.user, jsTrimStr (answer n))]
            scoreBreakdown := updateScoreBreakdown
              (localSession b answer analysis outcome n).scoreBreakdown
              (analysis n) } :=
    fun n => handleUserResponse_fallback_eq (answer n) (analysis n) (outcome n)
      (localSession b answer analysis outcome n) (hfail n) (hne n)
  have main : ∀ n, n ≤ 5 →
      (localSession b answer analysis outcome n).navigatedTo = none ∧
      botTexts (localSession b answer analysis outcome n).messages =
        welcomeMessage :: questions.take (n + 1) ∧
      (localSession b answer analysis outcome n).currentIndex = n := by
    intro n
    induction n with
    | zero => exact fun _ => ⟨rfl, rfl, rfl⟩
    | succ k ih =>
      intro hk5
      have hk : k ≤ 5 := Nat.le_of_succ_le hk5
      obtain ⟨hnav, hbot, hidx⟩ := ih hk
      rw [step k]
      set S := localSession b answer analysis outcome k with hS
      unfold handleLocalQuestionProgression
      split
      next hcond =>
        refine ⟨hnav, ?_, ?_⟩
        · show botTexts ((S.messages ++ [(Sender.user, jsTrimStr (answer k))]) ++
            [(Sender.bot, questions.getD (S.currentIndex + 1) "")]) =
            welcomeMessage :: questions.take (k + 1 + 1)
          rw [botTexts_append, botTexts_append, hbot, botTexts_user, botTexts_bot,
            List.append_nil, hidx, List.cons_append]
          have hlt : k + 1 < questions.length := by
            have hx : k + 1 < 6 := by omega
            exact hx
          rw [questions_take_concat (k + 1) hlt]
        · show S.currentIndex + 1 = k + 1
          rw [hidx]
      next hcond =>
        exfalso
        apply hcond
        show S.currentIndex < questions.length - 1
        rw [hidx]
        have hx : k < 5 := by omega
        exact hx
  refine ⟨main, ?_⟩
  obtain ⟨hnav, hbot, hidx⟩ := main 5 (le_refl 5)
  rw [step 5]
  set S := localSession b answer analysis outcome 5 with hS
  unfold handleLocalQuestionProgression
  split
  next hcond =>
    exfalso
    have hc : S.currentIndex < questions.length - 1 := hcond
    rw [hidx] at hc
    exact absurd hc (by decide)
  next hcond => rfl

/-- Witness for **C7**: a constant failing backend and a constant
non-empty answer. -/
theorem chat_local_fallback_witness :
    (∀ n : Nat, fallsBack ((fun _ : Nat => BackendOutcome.requestError) n) = true) ∧
    (∀ n : Nat, jsTrimStr ((fun _ : Nat => "I worked on a team project.") n) ≠ "") ∧
    (localSession ⟨0, 0, 0, 0, 0⟩ (fun _ => "I worked on a team project.")
      (fun _ => ⟨0, 0, 0⟩) (fun _ => BackendOutcome.requestError) 6).navigatedTo =
      some "/summary" :=
  ⟨fun _ => rfl,
    fun _ => by show jsTrimStr "I worked on a team project." ≠ ""; decide,
    (chat_local_fallback_presents_questions ⟨0, 0, 0, 0, 0⟩
      (fun _ => "I worked on a team project.") (fun _ => ⟨0, 0, 0⟩)
      (fun _ => BackendOutcome.requestError)
      (fun _ => rfl)
      (fun _ => by show jsTrimStr "I worked on a team project." ≠ ""; decide)).2⟩

end InterviewPrac
